import Mathlib

/-!
Verification of the configuration subsystem of wired-notify
(`src/config/mod.rs`): locating, loading, validating, installing, reloading
and watching the daemon configuration.

The Rust module is embedded shallowly: the ambient world (filesystem reads,
environment variables, and the external `xdg`, `ron` and `notify` libraries)
is a record of functions `Env`; the `static mut CONFIG : Option<Config>`
global is threaded explicitly as an `Option Config` state; `assert!` and
`.expect(..)` failures are the `panicked` constructor of `RunResult`.
-/

namespace Wired

/-- A filesystem path (`PathBuf`), as its list of components.
`PathBuf::pop` drops the last component; `join` appends components. -/
abbrev Path := List String

/-- Payload of `std::io::Error`, carried opaquely as its message. -/
structure IoError where
  msg : String
deriving DecidableEq

/-- Payload of `ron::de::Error`, carried opaquely as its message. -/
structure RonError where
  msg : String
deriving DecidableEq

/-- Payload of `notify::Error`, carried opaquely as its message. -/
structure NotifyError where
  msg : String
deriving DecidableEq

/-- Modelled from the spec: `rendering::layout::LayoutElement` lives outside
`src/`. It is a sum of typed element variants, exactly one of which is
`NotificationBlock`; payloads are opaque here, and `OtherElement` stands for
every non-`NotificationBlock` variant. -/
inductive LayoutElement where
  | NotificationBlock (params : Nat)
  | OtherElement (tag : Nat)
deriving DecidableEq

/-- Modelled from the spec: `rendering::layout::LayoutBlock` lives outside
`src/`. It is a recursive tree whose node carries a `params : LayoutElement`
and child blocks. -/
inductive LayoutBlock where
  | mk (params : LayoutElement) (children : List LayoutBlock)

/-- The `params` field of a `LayoutBlock` node. -/
def LayoutBlock.params : LayoutBlock → LayoutElement
  | .mk p _ => p

/-- Whether a `LayoutElement` is the `NotificationBlock` variant. -/
def LayoutElement.isNotificationBlock : LayoutElement → Bool
  | .NotificationBlock _ => true
  | .OtherElement _ => false

/-- Modelled from the spec: `maths_utility::MinMax` lives outside `src/`;
a min/max range of a dimension. -/
structure MinMax where
  min : Int
  max : Int
deriving DecidableEq

/-- `TextDimensions`: independent width and height ranges. -/
structure TextDimensions where
  width : MinMax
  height : MinMax
deriving DecidableEq

/-- `TextDimensionVariants`: four precomputed dimension sets, selected by
whether a notification carries an app image and/or a hint image. -/
structure TextDimensionVariants where
  dimensions : TextDimensions
  dimensions_image_hint : TextDimensions
  dimensions_image_app : TextDimensions
  dimensions_image_both : TextDimensions
deriving DecidableEq

/-- Modelled from the spec: `bus::dbus::Notification` lives outside `src/`;
only the two optional image slots consulted by `get_dimensions` are kept,
with opaque image payloads. -/
structure Notification where
  app_image : Option Nat
  hint_image : Option Nat
deriving DecidableEq

/-- `Color`: r/g/b/a as f64. No claim depends on float arithmetic; the
payloads are inert. -/
structure Color where
  r : Float
  g : Float
  b : Float
  a : Float

/-- `ShortcutsConfig`: four u8 key codes. They are only carried, never
computed with, so `Nat` is an adequate carrier. -/
structure ShortcutsConfig where
  notification_close : Nat
  notification_closeall : Nat
  notification_pause : Nat
  notification_url : Nat

/-- The configuration schema (`struct Config` in the source; usize/u32/u64
as `Nat`, i32 as `Int` — none are computed with in this module). -/
structure Config where
  max_notifications : Nat
  min_window_width : Nat
  min_window_height : Nat
  timeout : Int
  poll_interval : Nat
  debug : Bool
  debug_color : Color
  shortcuts : ShortcutsConfig
  layout : LayoutBlock

/-- The error enum `Error` of the source module. -/
inductive Error where
  | NotFound
  | Validate (msg : String)
  | Io (e : IoError)
  | Ron (e : RonError)
  | Watch (e : NotifyError)

/-- `notify::RecursiveMode`. -/
inductive RecursiveMode where
  | Recursive
  | NonRecursive
deriving DecidableEq

/-- `ConfigWatcher` holds the live `RecommendedWatcher` and its mpsc
receiver; the embedding records the parameters the watcher was configured
with: the directory finally passed to `watcher.watch`, the debouncing
period in milliseconds passed to `notify::watcher`, and the recursion
mode. -/
structure ConfigWatcher where
  watchedDir : Path
  debounce_ms : Nat
  mode : RecursiveMode
deriving DecidableEq

/-- Outcome of running a piece of code that may panic (`assert!`,
`.expect(..)`): either a value or a panic with its message. -/
inductive RunResult (α : Type) where
  | ok (a : α)
  | panicked (msg : String)

/-- Whether a run panicked. -/
def RunResult.isPanic {α : Type} : RunResult α → Bool
  | .ok _ => false
  | .panicked _ => true

/-- The ambient environment: filesystem, process environment and the
external `xdg` / `ron` / `notify` libraries, as abstract functions.
`xdgWiredConfig` is the result of
`xdg::BaseDirectories::with_prefix("wired").ok().and_then(|x| x.find_config_file("wired.ron"))`
and `xdgDefaultConfig` the same for `BaseDirectories::new()`; both are
third-party library calls (they return a path only when the file exists,
honouring the XDG base-directory override variables). -/
structure Env where
  read_to_string : Path → Except IoError String
  ron_from_str : String → Except RonError Config
  xdgWiredConfig : Option Path
  xdgDefaultConfig : Option Path
  home : Option Path
  pathExists : Path → Bool
  canonicalize : Path → Option Path
  watcherSpawn : Except NotifyError Unit
  watchDir : Path → Except NotifyError Unit

/-- `Config::validate`: the root layout params must be `NotificationBlock`. -/
def Config.validate (self : Config) : Except Error Config :=
  match self.layout.params with
  | .NotificationBlock _ => .ok self
  | .OtherElement _ =>
    .error (.Validate "The first LayoutBlock params must be of type NotificationBlock!")

/-- `Config::load`: read the file, deserialize with ron, then validate. -/
def Config.load (env : Env) (path : Path) : Except Error Config :=
  match env.read_to_string path with
  | .error e => .error (.Io e)
  | .ok s =>
    match env.ron_from_str s with
    | .error e => .error (.Ron e)
    | .ok cfg => cfg.validate

/-- `Config::installed_config`: probe the xdg per-app directory, then the
default xdg base directories, then `$HOME/.config/wired/wired.ron`, then
`$HOME/.wired.ron`; first hit wins. -/
def Config.installed_config (env : Env) : Option Path :=
  match env.xdgWiredConfig with
  | some p => some p
  | none =>
    match env.xdgDefaultConfig with
    | some p => some p
    | none =>
      match env.home with
      | some home =>
        let fallback := home ++ [".config", "wired", "wired.ron"]
        if env.pathExists fallback then some fallback
        else
          let fallback2 := home ++ [".wired.ron"]
          if env.pathExists fallback2 then some fallback2
          else none
      | none => none

/-- `Config::watch`: spawn a debounced notify watcher (10 ms debounce;
`.expect` panics on failure), pop the file name off the path, canonicalize
the directory (`.expect` panics on failure — the source message uses a
contraction, elided here), then watch it non-recursively; a failure of the
`watcher.watch` call itself is returned as `Error::Watch`. -/
def Config.watch (env : Env) (path : Path) : RunResult (Except Error ConfigWatcher) :=
  match env.watcherSpawn with
  | .error _ => .panicked "Unable to spawn file watcher."
  | .ok _ =>
    let dir := path.dropLast
    match env.canonicalize dir with
    | none => .panicked "Could not canonicalize path, wtf."
    | some cdir =>
      match env.watchDir cdir with
      | .ok _ => .ok (.ok { watchedDir := cdir, debounce_ms := 10, mode := .NonRecursive })
      | .error e => .ok (.error (.Watch e))

/-- Modelled from the spec: the embedded default document `src/wired.ron`
(pulled in with `include_str!`) is not under `src/`. `Config::default`
parses it with ron and `.expect`s success (a parse failure of the embedded
document aborts startup by design); the spec requires the embedded default
to satisfy the validation rule, i.e. its root layout params is a
`NotificationBlock`. The scalar values are otherwise immaterial to every
claim. -/
def Config.default : Config :=
  { max_notifications := 4
    min_window_width := 1
    min_window_height := 1
    timeout := 10000
    poll_interval := 16
    debug := false
    debug_color := { r := 1.0, g := 0.0, b := 0.0, a := 1.0 }
    shortcuts := { notification_close := 1, notification_closeall := 2,
                   notification_pause := 3, notification_url := 9 }
    layout := .mk (.NotificationBlock 0) [] }

/-- Panic message of `assert!(CONFIG.is_none())` in `init`. -/
def assertNoneMsg : String := "assertion failed: CONFIG.is_none()"

/-- Panic message of `assert!(CONFIG.is_some())` in `get` / `get_mut`. -/
def assertSomeMsg : String := "assertion failed: CONFIG.is_some()"

/-- `Config::get`: assert the global is initialized, then return it. -/
def Config.get (s : Option Config) : RunResult Config :=
  match s with
  | some c => .ok c
  | none => .panicked assertSomeMsg

/-- `Config::get_mut`: same precondition and result as `get` (the mutable
aliasing itself has no functional content to embed). -/
def Config.get_mut (s : Option Config) : RunResult Config :=
  match s with
  | some c => .ok c
  | none => .panicked assertSomeMsg

/-- `Config::try_reload`: on load success install the new config, on
failure keep the state (the source prints the error). -/
def Config.try_reload (env : Env) (path : Path) (s : Option Config) : Option Config :=
  match Config.load env path with
  | .ok cfg => some cfg
  | .error _ => s

/-- The value `init` assigns to the global `CONFIG` when a file `f` was
found: the loaded config on success, the embedded default on failure (the
source performs this assignment before calling `watch`). -/
def Config.loadOrDefault (env : Env) (f : Path) : Option Config :=
  match Config.load env f with
  | .ok c => some c
  | .error _ => some Config.default

/-- `Config::init`: assert the global is uninstalled; locate a config file;
if found, install the loaded config (or the embedded default when loading
fails) and watch the found path; if not found, install the embedded
default and return no watcher. The pair returned is (the `Option
ConfigWatcher` returned by `init`, the global `CONFIG` afterwards); a
panic inside `watch` propagates. -/
def Config.init (env : Env) (s : Option Config) : RunResult (Option ConfigWatcher × Option Config) :=
  match s with
  | some _ => .panicked assertNoneMsg
  | none =>
    match Config.installed_config env with
    | some f =>
      match Config.watch env f with
      | .panicked m => .panicked m
      | .ok (.ok w) => .ok (some w, Config.loadOrDefault env f)
      | .ok (.error _) => .ok (none, Config.loadOrDefault env f)
    | none => .ok (none, some Config.default)

/-- `TextDimensionVariants::get_dimensions`: select one of the four
dimension sets by (app image present, hint image present). -/
def TextDimensionVariants.get_dimensions (self : TextDimensionVariants)
    (n : Notification) : TextDimensions :=
  match (n.app_image.isSome, n.hint_image.isSome) with
  | (true, true) => self.dimensions_image_both
  | (true, false) => self.dimensions_image_app
  | (false, true) => self.dimensions_image_hint
  | (false, false) => self.dimensions

/-! Concrete values used by witnesses and counterexamples. -/

/-- A sample dimension set. -/
def tdA : TextDimensions := { width := { min := 0, max := 100 }, height := { min := 0, max := 50 } }

/-- A second sample dimension set. -/
def tdB : TextDimensions := { width := { min := 1, max := 101 }, height := { min := 1, max := 51 } }

/-- A third sample dimension set. -/
def tdC : TextDimensions := { width := { min := 2, max := 102 }, height := { min := 2, max := 52 } }

/-- A fourth sample dimension set. -/
def tdD : TextDimensions := { width := { min := 3, max := 103 }, height := { min := 3, max := 53 } }

/-- A concrete `TextDimensionVariants` with four distinct sets. -/
def tdvW : TextDimensionVariants :=
  { dimensions := tdA, dimensions_image_hint := tdB,
    dimensions_image_app := tdC, dimensions_image_both := tdD }

/-- A concrete well-formed configuration (root is a `NotificationBlock`). -/
def cfgGood : Config :=
  { max_notifications := 7
    min_window_width := 2
    min_window_height := 3
    timeout := 5000
    poll_interval := 8
    debug := true
    debug_color := { r := 0.0, g := 1.0, b := 0.0, a := 1.0 }
    shortcuts := { notification_close := 4, notification_closeall := 5,
                   notification_pause := 6, notification_url := 7 }
    layout := .mk (.NotificationBlock 1) [] }

/-- A concrete ill-formed configuration (root is not a `NotificationBlock`). -/
def cfgBad : Config :=
  { cfgGood with layout := .mk (.OtherElement 0) [] }

/-- A base environment: empty filesystem, no xdg hits, no HOME, watcher
machinery that succeeds, canonicalization the identity. -/
def envBase : Env :=
  { read_to_string := fun _ => .error { msg := "No such file or directory" }
    ron_from_str := fun _ => .error { msg := "unexpected end of input" }
    xdgWiredConfig := none
    xdgDefaultConfig := none
    home := none
    pathExists := fun _ => false
    canonicalize := fun p => some p
    watcherSpawn := .ok ()
    watchDir := fun _ => .ok () }

/-- A sample config file path. -/
def pathW : Path := ["home", "u", ".config", "wired", "wired.ron"]

/-- Environment in which `pathW` exists, parses to `cfgGood`, and is found
by the first xdg probe. -/
def envGood : Env :=
  { envBase with
    read_to_string := fun _ => .ok "cfg-text"
    ron_from_str := fun _ => .ok cfgGood
    xdgWiredConfig := some pathW }

/-- Environment in which the file exists but parses to a config whose root
layout is not a `NotificationBlock`. -/
def envBadRoot : Env :=
  { envBase with
    read_to_string := fun _ => .ok "cfg-text"
    ron_from_str := fun _ => .ok cfgBad
    xdgWiredConfig := some pathW }

/-- Environment in which reading the file fails, but a file was located. -/
def envIoFail : Env :=
  { envBase with xdgWiredConfig := some pathW }

/-- Environment in which the watched directory cannot be canonicalized
(e.g. it does not exist). -/
def envNoDir : Env :=
  { envGood with canonicalize := fun _ => none }

/-- Environment in which the `watcher.watch` call is denied. -/
def envWatchDenied : Env :=
  { envGood with watchDir := fun _ => .error { msg := "permission denied" } }

/-! Theorems settling the claims. -/

/-- C1: if loading the config at a path fails, `try_reload` leaves the
installed state unchanged — in particular a subsequent `get()` returns
exactly what it returned before — and a new config is installed only when
`load` succeeds, in which case it is the loaded one. -/
theorem try_reload_fail_soft (env : Env) (path : Path) (s : Option Config) :
    (∀ e, Config.load env path = .error e →
      Config.try_reload env path s = s ∧
      Config.get (Config.try_reload env path s) = Config.get s) ∧
    (∀ cfg, Config.load env path = .ok cfg →
      Config.try_reload env path s = some cfg) := by
  constructor
  · intro e h
    have hr : Config.try_reload env path s = s := by
      unfold Config.try_reload
      rw [h]
    exact ⟨hr, by rw [hr]⟩
  · intro cfg h
    unfold Config.try_reload
    rw [h]

/-- C1 witness: in an environment where the read fails, reloading over an
installed `cfgGood` keeps it, and `get` is unchanged. -/
theorem try_reload_fail_soft_witness :
    Config.try_reload envIoFail pathW (some cfgGood) = some cfgGood ∧
    Config.get (Config.try_reload envIoFail pathW (some cfgGood)) =
      Config.get (some cfgGood) :=
  (try_reload_fail_soft envIoFail pathW (some cfgGood)).1
    (.Io { msg := "No such file or directory" }) rfl

/-- C2 counterexample: when the parsed root layout is not a
`NotificationBlock`, `load` fails with the validation variant of the
source error enum carrying the source message, which is not the literal
"root layout must be NotificationBlock" quoted by the claim. -/
theorem load_validation_message_counterexample :
    Config.load envBadRoot pathW =
      .error (.Validate "The first LayoutBlock params must be of type NotificationBlock!") ∧
    "The first LayoutBlock params must be of type NotificationBlock!" ≠
      "root layout must be NotificationBlock" :=
  ⟨rfl, by decide⟩

/-- C2 (amended): when the read and the deserialization succeed, `load`
returns `.ok` exactly when the root layout params is a `NotificationBlock`;
otherwise it returns the validation error with the source message
"The first LayoutBlock params must be of type NotificationBlock!", and no
other config value is ever returned. -/
theorem load_root_validation (env : Env) (path : Path) (s : String) (cfg : Config)
    (hr : env.read_to_string path = .ok s)
    (hp : env.ron_from_str s = .ok cfg) :
    (Config.load env path = .ok cfg ↔ cfg.layout.params.isNotificationBlock = true) ∧
    (cfg.layout.params.isNotificationBlock = false →
      Config.load env path =
        .error (.Validate "The first LayoutBlock params must be of type NotificationBlock!")) ∧
    (∀ c2, Config.load env path = .ok c2 → c2 = cfg) := by
  have hl : Config.load env path = cfg.validate := by
    simp only [Config.load, hr, hp]
  refine ⟨?_, ?_, ?_⟩
  · rw [hl]
    unfold Config.validate LayoutElement.isNotificationBlock
    cases hpar : cfg.layout.params <;> simp
  · intro hn
    rw [hl]
    unfold Config.validate
    cases hpar : cfg.layout.params with
    | NotificationBlock p =>
      rw [hpar] at hn
      simp [LayoutElement.isNotificationBlock] at hn
    | OtherElement t => rfl
  · intro c2 h2
    rw [hl] at h2
    unfold Config.validate at h2
    cases hpar : cfg.layout.params with
    | NotificationBlock p =>
      rw [hpar] at h2
      injection h2 with h
      exact h.symm
    | OtherElement t =>
      rw [hpar] at h2
      exact Except.noConfusion h2

/-- C2 witness: `envGood` loads `cfgGood` (root is a `NotificationBlock`);
`envBadRoot` yields the validation error with the source message. -/
theorem load_root_validation_witness :
    Config.load envGood pathW = .ok cfgGood ∧
    Config.load envBadRoot pathW =
      .error (.Validate "The first LayoutBlock params must be of type NotificationBlock!") :=
  ⟨(load_root_validation envGood pathW "cfg-text" cfgGood rfl rfl).1.mpr rfl,
   (load_root_validation envBadRoot pathW "cfg-text" cfgBad rfl rfl).2.1 rfl⟩

/-- C3: `get_dimensions` selects exactly one of the four dimension sets by
the pair (app image present, hint image present): both present picks
`dimensions_image_both`; app only, `dimensions_image_app`; hint only,
`dimensions_image_hint`; neither, the base `dimensions`. The Bool-valued
conditions make the four cases mutually exclusive and exhaustive. -/
theorem get_dimensions_selection (t : TextDimensionVariants) (n : Notification) :
    (n.app_image.isSome = true → n.hint_image.isSome = true →
      t.get_dimensions n = t.dimensions_image_both) ∧
    (n.app_image.isSome = true → n.hint_image.isSome = false →
      t.get_dimensions n = t.dimensions_image_app) ∧
    (n.app_image.isSome = false → n.hint_image.isSome = true →
      t.get_dimensions n = t.dimensions_image_hint) ∧
    (n.app_image.isSome = false → n.hint_image.isSome = false →
      t.get_dimensions n = t.dimensions) := by
  unfold TextDimensionVariants.get_dimensions
  rcases n with ⟨a, h⟩
  cases a <;> cases h <;> simp

/-- Notification with both image slots filled. -/
def nBoth : Notification := { app_image := some 1, hint_image := some 2 }

/-- Notification with only the app image. -/
def nApp : Notification := { app_image := some 1, hint_image := none }

/-- Notification with only the hint image. -/
def nHint : Notification := { app_image := none, hint_image := some 2 }

/-- Notification with neither image. -/
def nPlain : Notification := { app_image := none, hint_image := none }

/-- C3 witness: all four (app, hint) combinations exercised on a concrete
variant table with four distinct sets. -/
theorem get_dimensions_selection_witness :
    tdvW.get_dimensions nBoth = tdvW.dimensions_image_both ∧
    tdvW.get_dimensions nApp = tdvW.dimensions_image_app ∧
    tdvW.get_dimensions nHint = tdvW.dimensions_image_hint ∧
    tdvW.get_dimensions nPlain = tdvW.dimensions :=
  ⟨(get_dimensions_selection tdvW nBoth).1 rfl rfl,
   (get_dimensions_selection tdvW nApp).2.1 rfl rfl,
   (get_dimensions_selection tdvW nHint).2.2.1 rfl rfl,
   (get_dimensions_selection tdvW nPlain).2.2.2 rfl rfl⟩

/-- C4: `installed_config` probes, in order, the per-application xdg
lookup, the default-base xdg lookup, `$HOME/.config/wired/wired.ron`, then
`$HOME/.wired.ron`, returning the first hit; it returns `none` when the
xdg probes miss and HOME is unset, or HOME is set but neither home
fallback exists. -/
theorem installed_config_search_order (env : Env) :
    (∀ p, env.xdgWiredConfig = some p → Config.installed_config env = some p) ∧
    (env.xdgWiredConfig = none → ∀ p, env.xdgDefaultConfig = some p →
      Config.installed_config env = some p) ∧
    (env.xdgWiredConfig = none → env.xdgDefaultConfig = none →
      ∀ hm, env.home = some hm →
        env.pathExists (hm ++ [".config", "wired", "wired.ron"]) = true →
        Config.installed_config env = some (hm ++ [".config", "wired", "wired.ron"])) ∧
    (env.xdgWiredConfig = none → env.xdgDefaultConfig = none →
      ∀ hm, env.home = some hm →
        env.pathExists (hm ++ [".config", "wired", "wired.ron"]) = false →
        env.pathExists (hm ++ [".wired.ron"]) = true →
        Config.installed_config env = some (hm ++ [".wired.ron"])) ∧
    (env.xdgWiredConfig = none → env.xdgDefaultConfig = none → env.home = none →
      Config.installed_config env = none) ∧
    (env.xdgWiredConfig = none → env.xdgDefaultConfig = none →
      ∀ hm, env.home = some hm →
        env.pathExists (hm ++ [".config", "wired", "wired.ron"]) = false →
        env.pathExists (hm ++ [".wired.ron"]) = false →
        Config.installed_config env = none) := by
  refine ⟨?_, ?_, ?_, ?_, ?_, ?_⟩ <;> intros <;>
    simp_all [Config.installed_config]

/-- Environment whose only config file is the `$HOME/.wired.ron`
fallback. -/
def envHomeTwo : Env :=
  { envBase with
    home := some ["home", "u"]
    pathExists := fun p => p == ["home", "u", ".wired.ron"] }

/-- C4 witness: with both xdg probes missing, HOME set, the first home
fallback absent and the second present, the second fallback is returned. -/
theorem installed_config_search_order_witness :
    Config.installed_config envHomeTwo = some (["home", "u"] ++ [".wired.ron"]) :=
  (installed_config_search_order envHomeTwo).2.2.2.1 rfl rfl
    ["home", "u"] rfl (by decide) (by decide)

/-- C6: `get` and `get_mut` on an uninstalled registry panic with the
`CONFIG.is_some()` assertion (and never return a value), a second `init`
while a config is installed panics with the `CONFIG.is_none()` assertion,
and after installation `get` / `get_mut` return exactly the installed
config. -/
theorem lifecycle_asserts_fail_fast :
    Config.get none = .panicked assertSomeMsg ∧
    Config.get_mut none = .panicked assertSomeMsg ∧
    (∀ env c, Config.init env (some c) = .panicked assertNoneMsg) ∧
    (∀ c, Config.get (some c) = .ok c ∧ Config.get_mut (some c) = .ok c) :=
  ⟨rfl, rfl, fun _ _ => rfl, fun _ => ⟨rfl, rfl⟩⟩

/-- C7 counterexample: when the containing directory is missing (its
canonicalization fails), `watch` does not return `Err(Error::Watch(..))` —
it panics via `.expect`, terminating the run. -/
theorem watch_missing_dir_panics :
    Config.watch envNoDir pathW = .panicked "Could not canonicalize path, wtf." ∧
    (Config.watch envNoDir pathW).isPanic = true :=
  ⟨rfl, rfl⟩

/-- C7 (amended): when the watcher spawns and the containing directory
canonicalizes but the `watcher.watch` call itself fails (e.g. permissions),
`watch` returns `Err(Error::Watch(e))` through the `Result` without
panicking; when canonicalization fails (e.g. missing path), `watch`
panics instead (see the counterexample). -/
theorem watch_reports_watch_error (env : Env) (path : Path) (d : Path) (e : NotifyError)
    (hs : env.watcherSpawn = .ok ())
    (hc : env.canonicalize path.dropLast = some d)
    (hw : env.watchDir d = .error e) :
    Config.watch env path = .ok (.error (.Watch e)) ∧
    (Config.watch env path).isPanic = false := by
  have h : Config.watch env path = .ok (.error (.Watch e)) := by
    simp only [Config.watch, hs, hc, hw]
  exact ⟨h, by rw [h]; rfl⟩

/-- C7 witness: a denied `watcher.watch` call is reported as a
`Error.Watch` value, not a panic. -/
theorem watch_reports_watch_error_witness :
    Config.watch envWatchDenied pathW =
      .ok (.error (.Watch { msg := "permission denied" })) ∧
    (Config.watch envWatchDenied pathW).isPanic = false :=
  watch_reports_watch_error envWatchDenied pathW pathW.dropLast
    { msg := "permission denied" } rfl rfl rfl

/-- C8: `watch` subscribes to the (canonicalized) containing directory of
the config file — the path with its final component removed — in
non-recursive mode, with the 10 ms debouncing period passed to
`notify::watcher`. -/
theorem watch_watches_parent_dir (env : Env) (path : Path) (d : Path)
    (hs : env.watcherSpawn = .ok ())
    (hc : env.canonicalize path.dropLast = some d)
    (hw : env.watchDir d = .ok ()) :
    Config.watch env path =
      .ok (.ok { watchedDir := d, debounce_ms := 10, mode := .NonRecursive }) := by
  simp only [Config.watch, hs, hc, hw]

/-- C8 witness: watching the sample path subscribes to its parent
directory, non-recursively, with a 10 ms debounce. -/
theorem watch_watches_parent_dir_witness :
    Config.watch envGood pathW =
      .ok (.ok { watchedDir := ["home", "u", ".config", "wired"], debounce_ms := 10,
                 mode := .NonRecursive }) ∧
    pathW.dropLast = ["home", "u", ".config", "wired"] :=
  ⟨watch_watches_parent_dir envGood pathW ["home", "u", ".config", "wired"] rfl rfl rfl,
   rfl⟩

/-- Whatever `load` does on the found file, the state installed by `init`
is occupied. -/
theorem loadOrDefault_isSome (env : Env) (f : Path) :
    (Config.loadOrDefault env f).isSome = true := by
  unfold Config.loadOrDefault
  cases Config.load env f <;> rfl

/-- C5: starting from an uninstalled registry, every non-panicking run of
`init` ends with some config installed; concretely, when a file is found
and loads, the loaded config is installed; when a file is found but fails
to load, the embedded default is installed and `init` still returns
normally (whether the directory watch succeeds or is denied); when no file
is found, the embedded default is installed. -/
theorem init_always_installs_config (env : Env) :
    (∀ w s, Config.init env none = .ok (w, s) → s.isSome = true) ∧
    (∀ f e d, Config.installed_config env = some f →
      Config.load env f = .error e →
      env.watcherSpawn = .ok () → env.canonicalize f.dropLast = some d →
      env.watchDir d = .ok () →
      Config.init env none =
        .ok (some { watchedDir := d, debounce_ms := 10, mode := .NonRecursive },
             some Config.default)) ∧
    (∀ f e d e2, Config.installed_config env = some f →
      Config.load env f = .error e →
      env.watcherSpawn = .ok () → env.canonicalize f.dropLast = some d →
      env.watchDir d = .error e2 →
      Config.init env none = .ok (none, some Config.default)) ∧
    (∀ f c d, Config.installed_config env = some f →
      Config.load env f = .ok c →
      env.watcherSpawn = .ok () → env.canonicalize f.dropLast = some d →
      env.watchDir d = .ok () →
      Config.init env none =
        .ok (some { watchedDir := d, debounce_ms := 10, mode := .NonRecursive },
             some c)) ∧
    (Config.installed_config env = none →
      Config.init env none = .ok (none, some Config.default)) := by
  refine ⟨?_, ?_, ?_, ?_, ?_⟩
  · intro w s h
    unfold Config.init at h
    cases hf : Config.installed_config env
    case some f =>
      rw [hf] at h
      simp at h
      cases hw : Config.watch env f
      case panicked m =>
        rw [hw] at h
        simp at h
      case ok a =>
        rw [hw] at h
        cases a
        case ok w2 =>
          simp at h
          obtain ⟨h1, h2⟩ := h
          rw [← h2]
          exact loadOrDefault_isSome env f
        case error e2 =>
          simp at h
          obtain ⟨h1, h2⟩ := h
          rw [← h2]
          exact loadOrDefault_isSome env f
    case none =>
      rw [hf] at h
      simp at h
      obtain ⟨h1, h2⟩ := h
      rw [← h2]
      rfl
  · intro f e d hf hl hs hc hwd
    simp only [Config.init, hf, Config.watch, hs, hc, hwd, Config.loadOrDefault, hl]
  · intro f e d e2 hf hl hs hc hwd
    simp only [Config.init, hf, Config.watch, hs, hc, hwd, Config.loadOrDefault, hl]
  · intro f c d hf hl hs hc hwd
    simp only [Config.init, hf, Config.watch, hs, hc, hwd, Config.loadOrDefault, hl]
  · intro hf
    simp only [Config.init, hf]

/-- C5 witness: under `envIoFail` a file is found but unreadable, so the
embedded default is installed and `init` returns normally; under `envBase`
no file is found and the default is installed directly. -/
theorem init_always_installs_config_witness :
    Config.init envIoFail none =
      .ok (some { watchedDir := pathW.dropLast, debounce_ms := 10, mode := .NonRecursive },
           some Config.default) ∧
    Config.init envBase none = .ok (none, some Config.default) :=
  ⟨(init_always_installs_config envIoFail).2.1 pathW
      (.Io { msg := "No such file or directory" }) pathW.dropLast rfl rfl rfl rfl rfl,
   (init_always_installs_config envBase).2.2.2.2 rfl⟩

/-- C9: the embedded default configuration satisfies the validation rule of
user configs — its root layout params is a `NotificationBlock` — so
`validate` accepts it unchanged. -/
theorem default_config_validates :
    Config.default.validate = .ok Config.default ∧
    (Config.default).layout.params.isNotificationBlock = true :=
  ⟨rfl, rfl⟩

/-- C10: `init` returns a watcher only when a file was found and watching
its directory succeeded; when a file is found but fails to load, `init`
still watches that same path (installing the default meanwhile); when the
watch is refused, or when no file is found, `init` returns no watcher. -/
theorem init_watcher_conditions (env : Env) :
    (∀ w s, Config.init env none = .ok (some w, s) →
      ∃ f, Config.installed_config env = some f ∧
        Config.watch env f = .ok (.ok w)) ∧
    (∀ f e d, Config.installed_config env = some f →
      Config.load env f = .error e →
      env.watcherSpawn = .ok () → env.canonicalize f.dropLast = some d →
      env.watchDir d = .ok () →
      Config.init env none =
        .ok (some { watchedDir := d, debounce_ms := 10, mode := .NonRecursive },
             some Config.default)) ∧
    (∀ f e2, Config.installed_config env = some f →
      Config.watch env f = .ok (.error e2) →
      Config.init env none = .ok (none, Config.loadOrDefault env f)) ∧
    (Config.installed_config env = none →
      Config.init env none = .ok (none, some Config.default)) := by
  refine ⟨?_, ?_, ?_, ?_⟩
  · intro w s h
    unfold Config.init at h
    cases hf : Config.installed_config env
    case some f =>
      rw [hf] at h
      simp at h
      cases hw : Config.watch env f
      case panicked m =>
        rw [hw] at h
        simp at h
      case ok a =>
        rw [hw] at h
        cases a
        case ok w2 =>
          simp at h
          obtain ⟨h1, h2⟩ := h
          exact ⟨f, rfl, by rw [hw, h1]⟩
        case error e2 =>
          simp at h
    case none =>
      rw [hf] at h
      simp at h
  · intro f e d hf hl hs hc hwd
    simp only [Config.init, hf, Config.watch, hs, hc, hwd, Config.loadOrDefault, hl]
  · intro f e2 hf hw
    simp only [Config.init, hf, hw]
  · intro hf
    simp only [Config.init, hf]

/-- C10 witness: under `envBadRoot` the found file loads to an invalid
config, yet `init` watches its directory and returns the watcher while the
default is installed; under `envWatchDenied` the watch is refused and no
watcher is returned. -/
theorem init_watcher_conditions_witness :
    Config.init envBadRoot none =
      .ok (some { watchedDir := pathW.dropLast, debounce_ms := 10, mode := .NonRecursive },
           some Config.default) ∧
    Config.init envWatchDenied none =
      .ok (none, Config.loadOrDefault envWatchDenied pathW) :=
  ⟨(init_watcher_conditions envBadRoot).2.1 pathW
      (.Validate "The first LayoutBlock params must be of type NotificationBlock!")
      pathW.dropLast rfl rfl rfl rfl rfl,
   (init_watcher_conditions envWatchDenied).2.2.1 pathW
      (.Watch { msg := "permission denied" }) rfl rfl⟩

end Wired
